import Mathlib

/-!
Verification of the AARR aerodynamics core (src/AARR/src/physics/aerodynamics.py
and src/AARR/src/physics/simulation.py), shallowly embedded over ℝ.

Machine floats are modelled as real numbers.  Python operations that can
produce NaN/Inf (division) are modelled with `Option ℝ` where a claim is
about NaN/Inf; elsewhere the code paths guard divisions themselves.
`np.random.normal` draws are modelled as an explicit oracle argument
(`turb`): the caller supplies the sampled 3-vector.
-/

namespace AARR

/-- 3-component vector, the embedding of the `np.ndarray` 3-vectors. -/
@[ext] structure Vec3 where
  x : ℝ
  y : ℝ
  z : ℝ

instance : Zero Vec3 := ⟨⟨0, 0, 0⟩⟩

instance : Add Vec3 := ⟨fun a b => ⟨a.x + b.x, a.y + b.y, a.z + b.z⟩⟩

instance : Sub Vec3 := ⟨fun a b => ⟨a.x - b.x, a.y - b.y, a.z - b.z⟩⟩

instance : Neg Vec3 := ⟨fun a => ⟨-a.x, -a.y, -a.z⟩⟩

/-- Scalar multiplication, embedding `scalar * ndarray`. -/
instance : SMul ℝ Vec3 := ⟨fun c a => ⟨c * a.x, c * a.y, c * a.z⟩⟩

/-- `np.linalg.norm` of a 3-vector. -/
noncomputable def Vec3.norm (v : Vec3) : ℝ :=
  Real.sqrt (v.x ^ 2 + v.y ^ 2 + v.z ^ 2)

/-- aerodynamics.py, `class ObjectType(Enum)`. -/
inductive ObjectType where
  | jet
  | sphere
  | cylinder
  | cube
  | airfoil
  | custom
deriving DecidableEq

/-- aerodynamics.py, `@dataclass class AirProperties`. -/
structure AirProperties where
  density : ℝ
  viscosity : ℝ
  temperature : ℝ
  pressure : ℝ
  speed_of_sound : ℝ

/-- The dataclass defaults of `AirProperties`. -/
noncomputable def defaultAirProperties : AirProperties :=
  { density := 1.225
    viscosity := 1.81e-5
    temperature := 288.15
    pressure := 101325
    speed_of_sound := 343 }

/-- aerodynamics.py, `@dataclass class ObjectGeometry` (the optional mesh
fields, unused by the physics paths, are elided). -/
structure ObjectGeometry where
  length : ℝ
  width : ℝ
  height : ℝ
  frontal_area : ℝ
  surface_area : ℝ
  volume : ℝ
  object_type : ObjectType

/-- The `'coefficients'` sub-dict of the force dict. -/
structure Coefficients where
  cd : ℝ
  cl : ℝ
  reynolds : ℝ
  mach : ℝ

/-- The dict returned by `AerodynamicsEngine.calculate_forces`.  The zero-speed
branch omits the `'coefficients'` key, hence `Option`. -/
structure ForceBundle where
  drag : Vec3
  lift : Vec3
  side_force : Vec3
  total : Vec3
  coefficients : Option Coefficients

/-- `AerodynamicsEngine.calculate_reynolds_number`. -/
noncomputable def calculate_reynolds_number (air : AirProperties)
    (velocity characteristic_length : ℝ) : ℝ :=
  air.density * velocity * characteristic_length / air.viscosity

/-- `AerodynamicsEngine.calculate_mach_number`. -/
noncomputable def calculate_mach_number (air : AirProperties) (velocity : ℝ) : ℝ :=
  velocity / air.speed_of_sound

/-- `math.radians`. -/
noncomputable def radians (angle : ℝ) : ℝ := angle * Real.pi / 180

/-- `AerodynamicsEngine.get_drag_coefficient`. -/
noncomputable def get_drag_coefficient (obj_type : ObjectType)
    (reynolds mach angle : ℝ) : ℝ :=
  let angle_rad := radians angle
  match obj_type with
  | .jet =>
      0.02 + 0.1 * angle_rad ^ 2 +
        (if mach > 0.8 then 0.05 * (mach - 0.8) ^ 2 else 0)
  | .sphere =>
      if reynolds < 1 then 24 / reynolds
      else if reynolds < 1000 then
        24 / reynolds * (1 + 0.15 * reynolds ^ (0.687 : ℝ))
      else 0.44
  | .cylinder =>
      if reynolds < 1 then 8 * Real.pi / reynolds
      else if reynolds < 40 then 1.0
      else if reynolds < 1000 then 1.2
      else 0.3
  | .cube => 1.05 + 0.2 * |Real.sin (2 * angle_rad)|
  | .airfoil => 0.01 + 0.05 * angle_rad ^ 2
  | .custom => 0.5

/-- `AerodynamicsEngine.calculate_lift_coefficient`. -/
noncomputable def calculate_lift_coefficient (obj_type : ObjectType)
    (angle _reynolds : ℝ) : ℝ :=
  let angle_rad := radians angle
  match obj_type with
  | .jet => 0.8 * Real.sin (2 * angle_rad) * (1 - |angle_rad| / Real.pi)
  | .airfoil => 2 * Real.pi * angle_rad * (1 - |angle_rad| / (Real.pi / 4))
  | _ => 0.1 * Real.sin (2 * angle_rad)

/-- `AerodynamicsEngine.calculate_forces`. -/
noncomputable def calculate_forces (air : AirProperties)
    (geometry : ObjectGeometry) (velocity : Vec3) (angle : ℝ)
    (wind_velocity : Vec3) : ForceBundle :=
  let relative_velocity := velocity - wind_velocity
  let speed := relative_velocity.norm
  if speed < 1e-6 then
    { drag := 0, lift := 0, side_force := 0, total := 0, coefficients := none }
  else
    let velocity_unit := (1 / speed) • relative_velocity
    let reynolds := calculate_reynolds_number air speed geometry.length
    let mach := calculate_mach_number air speed
    let cd := get_drag_coefficient geometry.object_type reynolds mach angle
    let cl := calculate_lift_coefficient geometry.object_type angle reynolds
    let q := 0.5 * air.density * speed ^ 2
    let drag_magnitude := cd * geometry.frontal_area * q
    let drag_force := (-drag_magnitude) • velocity_unit
    let lift_magnitude := cl * geometry.frontal_area * q
    let lift_direction : Vec3 :=
      if |velocity_unit.x| > 0.1 then ⟨0, 1, 0⟩ else ⟨1, 0, 0⟩
    let lift_force := lift_magnitude • lift_direction
    let side_force : Vec3 := 0
    let total_force := drag_force + lift_force + side_force
    { drag := drag_force, lift := lift_force, side_force := side_force,
      total := total_force,
      coefficients := some ⟨cd, cl, reynolds, mach⟩ }

/-- `np.linspace lo hi n` at index `i` (step `(hi - lo)/(n - 1)`). -/
noncomputable def linspace (lo hi : ℝ) (n : Nat) (i : Nat) : ℝ :=
  lo + (hi - lo) * (i : ℝ) / ((n : ℝ) - 1)

/-- `np.arctan2 y x`, via the complex argument (both are `0` at the origin
and agree elsewhere on range `(-π, π]`). -/
noncomputable def atan2 (y x : ℝ) : ℝ := Complex.arg ⟨x, y⟩

/-- The dict returned by `AerodynamicsEngine.generate_flow_field`, as grid
functions `(j, i) ↦ value` (row-major like `np.meshgrid`; the grid is
`self.grid_size = (100, 100)`, indices `0 ≤ j, i < 100`).  Entries produced
by a division are `Option ℝ`: `none` models the float NaN/Inf a zero
denominator would produce.  The visualization-only streamline polylines,
referenced by no theorem below, are elided. -/
structure FlowField where
  x : Nat → Nat → ℝ
  y : Nat → Nat → ℝ
  u : Nat → Nat → Option ℝ
  v : Nat → Nat → Option ℝ
  pressure : Nat → Nat → Option ℝ
  velocity_magnitude : Nat → Nat → Option ℝ

/-- `obj_radius = max(geometry.width, geometry.height) / 2`. -/
noncomputable def objRadius (geometry : ObjectGeometry) : ℝ :=
  max geometry.width geometry.height / 2

/-- The x-grid of `generate_flow_field`: `np.linspace(-x_max/2, x_max/2, 100)`. -/
noncomputable def flowX (x_max : ℝ) (i : Nat) : ℝ :=
  linspace (-(x_max / 2)) (x_max / 2) 100 i

/-- The y-grid of `generate_flow_field`: `np.linspace(-y_max/2, y_max/2, 100)`. -/
noncomputable def flowY (y_max : ℝ) (j : Nat) : ℝ :=
  linspace (-(y_max / 2)) (y_max / 2) 100 j

/-- The clamped radial distance of `generate_flow_field`:
`R = np.maximum(np.sqrt(X² + Y²), obj_radius)` (object center at the origin). -/
noncomputable def flowR (geometry : ObjectGeometry) (x_max y_max : ℝ)
    (j i : Nat) : ℝ :=
  max (Real.sqrt (flowX x_max i ^ 2 + flowY y_max j ^ 2)) (objRadius geometry)

/-- The polar angle of `generate_flow_field`: `theta = np.arctan2(Y, X)`. -/
noncomputable def flowTheta (x_max y_max : ℝ) (j i : Nat) : ℝ :=
  atan2 (flowY y_max j) (flowX x_max i)

/-- `AerodynamicsEngine.generate_flow_field`. -/
noncomputable def generate_flow_field (air : AirProperties)
    (geometry : ObjectGeometry) (velocity : Vec3) (_angle : ℝ)
    (domain_size : ℝ × ℝ) : FlowField :=
  let x_max := domain_size.1
  let y_max := domain_size.2
  -- speed = np.linalg.norm(velocity[:2])  (2D projection)
  let speed := Real.sqrt (velocity.x ^ 2 + velocity.y ^ 2)
  let obj_radius := objRadius geometry
  let u : Nat → Nat → Option ℝ := fun j i =>
    if flowR geometry x_max y_max j i = 0 then none
    else some (speed * (1 - (obj_radius / flowR geometry x_max y_max j i) ^ 2 *
      Real.cos (2 * flowTheta x_max y_max j i)))
  let v : Nat → Nat → Option ℝ := fun j i =>
    if flowR geometry x_max y_max j i = 0 then none
    else some (-(speed * (obj_radius / flowR geometry x_max y_max j i) ^ 2 *
      Real.sin (2 * flowTheta x_max y_max j i)))
  { x := fun _j i => flowX x_max i
    y := fun j _i => flowY y_max j
    u := u
    v := v
    velocity_magnitude := fun j i => do
      let uu ← u j i
      let vv ← v j i
      pure (Real.sqrt (uu ^ 2 + vv ^ 2))
    pressure := fun j i => do
      let uu ← u j i
      let vv ← v j i
      pure (air.pressure + 0.5 * air.density *
        (speed ^ 2 - Real.sqrt (uu ^ 2 + vv ^ 2) ^ 2)) }

/-- The dict returned by `AerodynamicsEngine.calculate_aerodynamic_efficiency`.
The Python keys are `lift_to_drag_ratio`, `drag_area`, `fineness_ratio`,
`drag_coefficient`, `lift_coefficient`; the first is `Option ℝ`, with `none`
modelling `float('inf')` when drag ≤ 1e-6. -/
structure Efficiency where
  lift_to_drag : Option ℝ
  drag_area : ℝ
  fineness : ℝ
  drag_coefficient : ℝ
  lift_coefficient : ℝ

/-- `AerodynamicsEngine.calculate_aerodynamic_efficiency`. -/
noncomputable def calculate_aerodynamic_efficiency (forces : ForceBundle)
    (geometry : ObjectGeometry) : Efficiency :=
  let drag_force := forces.drag.norm
  let lift_force := forces.lift.norm
  { lift_to_drag :=
      if drag_force > 1e-6 then some (lift_force / drag_force) else none
    drag_area := geometry.frontal_area
    fineness := geometry.length / max geometry.width geometry.height
    drag_coefficient := (forces.coefficients.map Coefficients.cd).getD 0
    lift_coefficient := (forces.coefficients.map Coefficients.cl).getD 0 }

/-- simulation.py, `@dataclass class SimulationParameters`. -/
structure SimulationParameters where
  dt : ℝ
  max_time : ℝ
  wind_velocity : Vec3
  wind_angle : ℝ
  object_angle : ℝ
  gravity : Vec3
  air_density : ℝ
  enable_turbulence : Bool
  turbulence_intensity : ℝ

/-- The dataclass defaults of `SimulationParameters`. -/
noncomputable def defaultParameters : SimulationParameters :=
  { dt := 0.001
    max_time := 10.0
    wind_velocity := ⟨10.0, 0.0, 0.0⟩
    wind_angle := 0.0
    object_angle := 0.0
    gravity := ⟨0.0, -9.81, 0.0⟩
    air_density := 1.225
    enable_turbulence := false
    turbulence_intensity := 0.1 }

/-- aerodynamics.py, `@dataclass class SimulationState`.  `forces` starts as
the empty dict `{}` (`none` here) and holds the latest bundle afterwards;
`moments` stays the empty dict throughout and is elided. -/
structure SimulationState where
  position : Vec3
  velocity : Vec3
  acceleration : Vec3
  angular_velocity : Vec3
  time : ℝ
  forces : Option ForceBundle

/-- simulation.py, `@dataclass class SimulationResults`. -/
structure SimulationResults where
  time_history : List ℝ
  position_history : List Vec3
  velocity_history : List Vec3
  acceleration_history : List Vec3
  force_history : List ForceBundle
  flow_fields : List FlowField
  efficiency_metrics : List Efficiency

/-- The empty `SimulationResults()` all dataclass fields default to `[]`. -/
def emptyResults : SimulationResults :=
  { time_history := []
    position_history := []
    velocity_history := []
    acceleration_history := []
    force_history := []
    flow_fields := []
    efficiency_metrics := [] }

/-- simulation.py, `class SimulationManager`.  `air_props` is the engine's
`self.engine.air_props`; the callback list performs no state mutation in the
step path and is elided. -/
structure SimulationManager where
  air_props : AirProperties
  is_running : Bool
  is_paused : Bool
  current_time : ℝ
  results : SimulationResults
  parameters : SimulationParameters
  state : SimulationState
  geometry : Option ObjectGeometry

/-- `SimulationManager.__init__`. -/
noncomputable def initManager : SimulationManager :=
  { air_props := defaultAirProperties
    is_running := false
    is_paused := false
    current_time := 0.0
    results := emptyResults
    parameters := defaultParameters
    state :=
      { position := 0
        velocity := 0
        acceleration := 0
        angular_velocity := 0
        time := 0.0
        forces := none }
    geometry := none }

/-- `SimulationManager.set_object_geometry` (the shape-specific derived-area
formulas of simulation.py lines 76-97). -/
noncomputable def set_object_geometry (obj_type : ObjectType)
    (length width height : ℝ) (m : SimulationManager) : SimulationManager :=
  let geo : ObjectGeometry :=
    match obj_type with
    | .jet =>
        { length := length, width := width, height := height
          frontal_area := Real.pi * (width / 2) * (height / 2)
          surface_area := 2 * Real.pi * (width / 2) * length
          volume := Real.pi * (width / 2) * (height / 2) * length * 0.7
          object_type := obj_type }
    | .sphere =>
        { length := length, width := width, height := height
          frontal_area := Real.pi * (width / 2) ^ 2
          surface_area := 4 * Real.pi * (width / 2) ^ 2
          volume := 4 / 3 * Real.pi * (width / 2) ^ 3
          object_type := obj_type }
    | .cylinder =>
        { length := length, width := width, height := height
          frontal_area := Real.pi * (width / 2) ^ 2
          surface_area := 2 * Real.pi * (width / 2) * (width / 2 + length)
          volume := Real.pi * (width / 2) ^ 2 * length
          object_type := obj_type }
    | _ =>
        -- CUBE and the default branch share the box formulas
        { length := length, width := width, height := height
          frontal_area := width * height
          surface_area := 2 * (width * height + width * length + height * length)
          volume := width * height * length
          object_type := obj_type }
  { m with geometry := some geo }

/-- `SimulationManager.reset_simulation`. -/
noncomputable def reset_simulation (m : SimulationManager) : SimulationManager :=
  { m with
    current_time := 0.0
    is_running := false
    is_paused := false
    results := emptyResults
    state :=
      { position := 0
        velocity := m.parameters.wind_velocity
        acceleration := 0
        angular_velocity := 0
        time := 0.0
        forces := none } }

/-- The wind vector a step uses (simulation.py lines 141-152): the configured
wind speed rotated by `wind_angle`, plus, when turbulence is enabled, the
sampled perturbation `turb` (the `np.random.normal` draw) scaled by the wind
speed. -/
noncomputable def effectiveWind (m : SimulationManager) (turb : Vec3) : Vec3 :=
  let wind_angle_rad := radians m.parameters.wind_angle
  let wind_speed := m.parameters.wind_velocity.norm
  let wind_velocity : Vec3 :=
    ⟨wind_speed * Real.cos wind_angle_rad, wind_speed * Real.sin wind_angle_rad, 0⟩
  if m.parameters.enable_turbulence then wind_velocity + wind_speed • turb
  else wind_velocity

/-- The per-step appends to `SimulationResults` (simulation.py lines 177-181). -/
def recordStep (r : SimulationResults) (t : ℝ) (pos vel acc : Vec3)
    (forces : ForceBundle) : SimulationResults :=
  { r with
    time_history := r.time_history ++ [t]
    position_history := r.position_history ++ [pos]
    velocity_history := r.velocity_history ++ [vel]
    acceleration_history := r.acceleration_history ++ [acc]
    force_history := r.force_history ++ [forces] }

/-- The every-10th-step appends (simulation.py lines 184-195). -/
def recordSnapshot (r : SimulationResults) (ff : FlowField) (eff : Efficiency) :
    SimulationResults :=
  { r with
    flow_fields := r.flow_fields ++ [ff]
    efficiency_metrics := r.efficiency_metrics ++ [eff] }

/-- The successful branch of `SimulationManager.step_simulation` for geometry
`geo` (simulation.py lines 140-204), with the random draw passed in as `turb`. -/
noncomputable def stepCore (geo : ObjectGeometry) (turb : Vec3)
    (m : SimulationManager) : SimulationManager :=
  let wind_velocity := effectiveWind m turb
  let forces := calculate_forces m.air_props geo m.state.velocity
    m.parameters.object_angle wind_velocity
  -- total acceleration including gravity, unit mass
  let total_force := forces.total + m.parameters.gravity
  let acceleration := total_force
  -- Euler integration: velocity then position with the updated velocity
  let velocity := m.state.velocity + m.parameters.dt • acceleration
  let position := m.state.position + m.parameters.dt • velocity
  let current_time := m.current_time + m.parameters.dt
  let state' : SimulationState :=
    { position := position
      velocity := velocity
      acceleration := acceleration
      angular_velocity := m.state.angular_velocity
      time := current_time
      forces := some forces }
  let results1 := recordStep m.results current_time position velocity
    acceleration forces
  -- flow field every 10 steps, keyed on the post-append history length
  let results2 :=
    if results1.time_history.length % 10 = 0 then
      recordSnapshot results1
        (generate_flow_field m.air_props geo velocity
          m.parameters.object_angle (20.0, 10.0))
        (calculate_aerodynamic_efficiency forces geo)
    else results1
  { m with current_time := current_time, state := state', results := results2 }

/-- `SimulationManager.step_simulation`: the guard of line 137
(`if not self.geometry or self.current_time >= self.parameters.max_time`)
returns `False` leaving the manager untouched; otherwise one step runs and
`True` is returned. -/
noncomputable def step_simulation (turb : Vec3) (m : SimulationManager) :
    Bool × SimulationManager :=
  match m.geometry with
  | none => (false, m)
  | some geo =>
      if m.parameters.max_time ≤ m.current_time then (false, m)
      else (true, stepCore geo turb m)

/-- `n` consecutive `step_simulation` calls, the `k`-th using draw `f k`. -/
noncomputable def runSteps (f : Nat → Vec3) : Nat → SimulationManager →
    SimulationManager
  | 0, m => m
  | n + 1, m => (step_simulation (f n) (runSteps f n m)).2

/-- The operations a driver may interleave: steps, resets and geometry
configuration. -/
inductive SimOp where
  | step (turb : Vec3)
  | reset
  | setGeometry (obj_type : ObjectType) (length width height : ℝ)

/-- Apply one driver operation. -/
noncomputable def applyOp (m : SimulationManager) : SimOp → SimulationManager
  | .step turb => (step_simulation turb m).2
  | .reset => reset_simulation m
  | .setGeometry ty l w h => set_object_geometry ty l w h m

/-- Apply a sequence of driver operations in order. -/
noncomputable def applyOps (m : SimulationManager) : List SimOp →
    SimulationManager
  | [] => m
  | op :: rest => applyOps (applyOp m op) rest

/-- The cross-sequence length invariant of `SimulationResults` (§3 of the
spec). -/
def resultsInvariant (r : SimulationResults) : Prop :=
  r.position_history.length = r.time_history.length ∧
  r.velocity_history.length = r.time_history.length ∧
  r.acceleration_history.length = r.time_history.length ∧
  r.force_history.length = r.time_history.length ∧
  r.flow_fields.length = r.time_history.length / 10 ∧
  r.efficiency_metrics.length = r.time_history.length / 10

/-! Component lemmas for `Vec3` arithmetic. -/

@[simp] theorem Vec3.zero_x : (0 : Vec3).x = 0 := rfl

@[simp] theorem Vec3.zero_y : (0 : Vec3).y = 0 := rfl

@[simp] theorem Vec3.zero_z : (0 : Vec3).z = 0 := rfl

@[simp] theorem Vec3.sub_x (a b : Vec3) : (a - b).x = a.x - b.x := rfl

@[simp] theorem Vec3.sub_y (a b : Vec3) : (a - b).y = a.y - b.y := rfl

@[simp] theorem Vec3.sub_z (a b : Vec3) : (a - b).z = a.z - b.z := rfl

@[simp] theorem Vec3.add_x (a b : Vec3) : (a + b).x = a.x + b.x := rfl

@[simp] theorem Vec3.add_y (a b : Vec3) : (a + b).y = a.y + b.y := rfl

@[simp] theorem Vec3.add_z (a b : Vec3) : (a + b).z = a.z + b.z := rfl

@[simp] theorem Vec3.smul_x (c : ℝ) (a : Vec3) : (c • a).x = c * a.x := rfl

@[simp] theorem Vec3.smul_y (c : ℝ) (a : Vec3) : (c • a).y = c * a.y := rfl

@[simp] theorem Vec3.smul_z (c : ℝ) (a : Vec3) : (c • a).z = c * a.z := rfl

/-- C1: whenever the relative speed `‖object_velocity − wind_velocity‖` is
below `1e-6`, `calculate_forces` returns the bundle whose drag, lift,
side_force and total are all the zero vector and whose coefficients entry is
absent — a defined result, for every geometry, angle and air model. -/
theorem calculate_forces_zero_speed (air : AirProperties)
    (geometry : ObjectGeometry) (velocity : Vec3) (angle : ℝ)
    (wind_velocity : Vec3) (h : (velocity - wind_velocity).norm < 1e-6) :
    calculate_forces air geometry velocity angle wind_velocity =
      { drag := 0, lift := 0, side_force := 0, total := 0,
        coefficients := none } := by
  simp only [calculate_forces]
  rw [if_pos h]

/-- Witness for C1 at a concrete input: object velocity equal to the wind
velocity gives relative speed 0 < 1e-6 and the all-zero bundle. -/
theorem calculate_forces_zero_speed_witness :
    calculate_forces defaultAirProperties
      ⟨1, 1, 1, 1, 1, 1, ObjectType.sphere⟩ ⟨3, 4, 5⟩ 0 ⟨3, 4, 5⟩ =
      { drag := 0, lift := 0, side_force := 0, total := 0,
        coefficients := none } := by
  apply calculate_forces_zero_speed
  have : ((⟨3, 4, 5⟩ : Vec3) - ⟨3, 4, 5⟩).norm = 0 := by
    simp [Vec3.norm]
  rw [this]
  norm_num

/-- Guard helper: a step with no geometry refuses, leaving the manager as is. -/
theorem step_refused_no_geometry (turb : Vec3) (m : SimulationManager)
    (h : m.geometry = none) : step_simulation turb m = (false, m) := by
  simp [step_simulation, h]

/-- Guard helper: a step at or past `max_time` refuses, leaving the manager
as is. -/
theorem step_refused_time_up (turb : Vec3) (m : SimulationManager)
    {geo : ObjectGeometry} (hgeo : m.geometry = some geo)
    (h : m.parameters.max_time ≤ m.current_time) :
    step_simulation turb m = (false, m) := by
  simp [step_simulation, hgeo, h]

/-- C3: a `step_simulation` call with no geometry configured returns `False`
and leaves the whole manager — state, current time and every results
sequence — untouched. -/
theorem step_simulation_no_geometry (turb : Vec3) (m : SimulationManager)
    (h : m.geometry = none) : step_simulation turb m = (false, m) :=
  step_refused_no_geometry turb m h

/-- Witness for C3: the freshly constructed manager has no geometry, and
stepping it returns `False` with the manager unchanged (log still empty). -/
theorem step_simulation_no_geometry_witness :
    step_simulation 0 initManager = (false, initManager) :=
  step_simulation_no_geometry 0 initManager rfl

/-- C10: with geometry set but `current_time ≥ max_time`, `step_simulation`
returns `False` and performs no mutation at all: the same guard that protects
the unset-geometry case returns the manager unchanged. -/
theorem step_simulation_at_max_time (turb : Vec3) (m : SimulationManager)
    {geo : ObjectGeometry} (hgeo : m.geometry = some geo)
    (h : m.parameters.max_time ≤ m.current_time) :
    step_simulation turb m = (false, m) :=
  step_refused_time_up turb m hgeo h

/-- A manager with a sphere geometry whose clock has reached `max_time`. -/
noncomputable def mgrStopped : SimulationManager :=
  { set_object_geometry ObjectType.sphere 1 1 1 initManager with
    current_time := 10.0 }

/-- Witness for C10 at a concrete input: geometry set, `current_time = 10 ≥
max_time = 10`, so the step returns `False` and changes nothing. -/
theorem step_simulation_at_max_time_witness :
    step_simulation 0 mgrStopped = (false, mgrStopped) :=
  step_simulation_at_max_time 0 mgrStopped rfl
    (by norm_num [mgrStopped, set_object_geometry, initManager,
      defaultParameters])

/-- C5: for every shape, every angle of attack in `[-45°, 45°]`, every
positive Reynolds number and every non-negative Mach number, the drag
coefficient returned by `get_drag_coefficient` is non-negative. -/
theorem drag_coefficient_nonneg (obj_type : ObjectType)
    (reynolds mach angle : ℝ) (hangle : -45 ≤ angle ∧ angle ≤ 45)
    (hre : 0 < reynolds) (hmach : 0 ≤ mach) :
    0 ≤ get_drag_coefficient obj_type reynolds mach angle := by
  cases obj_type with
  | jet =>
      simp only [get_drag_coefficient]
      have h1 : (0 : ℝ) ≤ 0.02 + 0.1 * radians angle ^ 2 := by positivity
      have h2 : (0 : ℝ) ≤
          if mach > 0.8 then 0.05 * (mach - 0.8) ^ 2 else 0 := by
        split
        · positivity
        · exact le_rfl
      linarith
  | sphere =>
      simp only [get_drag_coefficient]
      split
      · exact div_nonneg (by norm_num) hre.le
      · split
        · refine mul_nonneg (div_nonneg (by norm_num) hre.le) ?_
          have := Real.rpow_nonneg hre.le (0.687 : ℝ)
          nlinarith
        · norm_num
  | cylinder =>
      simp only [get_drag_coefficient]
      split
      · exact div_nonneg (by positivity) hre.le
      · split
        · norm_num
        · split
          · norm_num
          · norm_num
  | cube =>
      simp only [get_drag_coefficient]
      positivity
  | airfoil =>
      simp only [get_drag_coefficient]
      positivity
  | custom =>
      simp only [get_drag_coefficient]
      norm_num

/-- Witness for C5 at a concrete input: a cube at angle 0, `Re = 1`,
`Mach = 0` has a non-negative drag coefficient. -/
theorem drag_coefficient_nonneg_witness :
    0 ≤ get_drag_coefficient ObjectType.cube 1 0 0 :=
  drag_coefficient_nonneg ObjectType.cube 1 0 0
    ⟨by norm_num, by norm_num⟩ (by norm_num) le_rfl

/-- A successful guarded step unfolds to `stepCore`. -/
theorem step_simulation_success (turb : Vec3) (m : SimulationManager)
    {geo : ObjectGeometry} (hgeo : m.geometry = some geo)
    (ht : m.current_time < m.parameters.max_time) :
    step_simulation turb m = (true, stepCore geo turb m) := by
  simp [step_simulation, hgeo, not_le.mpr ht]

/-- C2: every successful step integrates by semi-implicit Euler with unit
mass: the new acceleration is the resolved total force plus gravity, the new
velocity adds `dt` times that acceleration, the new position adds `dt` times
the already-updated velocity, and the clock advances by `dt`. -/
theorem step_simulation_semi_implicit_euler (turb : Vec3)
    (m : SimulationManager) {geo : ObjectGeometry}
    (hgeo : m.geometry = some geo)
    (ht : m.current_time < m.parameters.max_time) :
    (step_simulation turb m).1 = true ∧
    ((step_simulation turb m).2).state.acceleration =
      (calculate_forces m.air_props geo m.state.velocity
        m.parameters.object_angle (effectiveWind m turb)).total +
        m.parameters.gravity ∧
    ((step_simulation turb m).2).state.velocity =
      m.state.velocity +
        m.parameters.dt • ((step_simulation turb m).2).state.acceleration ∧
    ((step_simulation turb m).2).state.position =
      m.state.position +
        m.parameters.dt • ((step_simulation turb m).2).state.velocity ∧
    ((step_simulation turb m).2).current_time =
      m.current_time + m.parameters.dt ∧
    ((step_simulation turb m).2).state.time =
      ((step_simulation turb m).2).current_time := by
  rw [step_simulation_success turb m hgeo ht]
  exact ⟨rfl, rfl, rfl, rfl, rfl, rfl⟩

/-- A manager with a 2 m sphere configured, otherwise at the defaults. -/
noncomputable def mgrSphere : SimulationManager :=
  set_object_geometry ObjectType.sphere 2 2 2 initManager

/-- The geometry record `set_object_geometry` derives for that sphere. -/
noncomputable def geoSphere : ObjectGeometry :=
  { length := 2, width := 2, height := 2
    frontal_area := Real.pi * (2 / 2) ^ 2
    surface_area := 4 * Real.pi * (2 / 2) ^ 2
    volume := 4 / 3 * Real.pi * (2 / 2) ^ 3
    object_type := ObjectType.sphere }

/-- Witness for C2 at a concrete input: the sphere manager at time 0 steps
successfully and its new state satisfies the four Euler equations. -/
theorem step_simulation_semi_implicit_euler_witness :
    (step_simulation 0 mgrSphere).1 = true ∧
    ((step_simulation 0 mgrSphere).2).state.acceleration =
      (calculate_forces mgrSphere.air_props geoSphere mgrSphere.state.velocity
        mgrSphere.parameters.object_angle (effectiveWind mgrSphere 0)).total +
        mgrSphere.parameters.gravity ∧
    ((step_simulation 0 mgrSphere).2).state.velocity =
      mgrSphere.state.velocity +
        mgrSphere.parameters.dt •
          ((step_simulation 0 mgrSphere).2).state.acceleration ∧
    ((step_simulation 0 mgrSphere).2).state.position =
      mgrSphere.state.position +
        mgrSphere.parameters.dt •
          ((step_simulation 0 mgrSphere).2).state.velocity ∧
    ((step_simulation 0 mgrSphere).2).current_time =
      mgrSphere.current_time + mgrSphere.parameters.dt ∧
    ((step_simulation 0 mgrSphere).2).state.time =
      ((step_simulation 0 mgrSphere).2).current_time :=
  step_simulation_semi_implicit_euler 0 mgrSphere rfl
    (by norm_num [mgrSphere, set_object_geometry, initManager,
      defaultParameters])

/-- Below `Re = 1` the sphere branch is Stokes drag `24 / Re`. -/
theorem sphere_cd_of_lt_one (re mach angle : ℝ) (h : re < 1) :
    get_drag_coefficient ObjectType.sphere re mach angle = 24 / re := by
  simp [get_drag_coefficient, h]

/-- At `Re = 1` the sphere middle branch evaluates to `24 · 1.15 = 27.6`. -/
theorem sphere_cd_at_one (mach angle : ℝ) :
    get_drag_coefficient ObjectType.sphere 1 mach angle = 27.6 := by
  simp only [get_drag_coefficient]
  rw [if_neg (by norm_num), if_pos (by norm_num), Real.one_rpow]
  norm_num

/-- The sphere drag coefficient tends to `24` as `Re → 1` from below. -/
theorem sphere_cd_tendsto_left (mach angle : ℝ) :
    Filter.Tendsto
      (fun re => get_drag_coefficient ObjectType.sphere re mach angle)
      (nhdsWithin 1 (Set.Iio 1)) (nhds 24) := by
  have hc : Filter.Tendsto (fun re : ℝ => 24 / re)
      (nhdsWithin 1 (Set.Iio 1)) (nhds 24) := by
    have h1 : ContinuousAt (fun re : ℝ => 24 / re) 1 :=
      ContinuousAt.div continuousAt_const continuousAt_id (by norm_num)
    have h2 := h1.tendsto
    norm_num at h2
    exact h2.mono_left nhdsWithin_le_nhds
  refine hc.congr' ?_
  filter_upwards [self_mem_nhdsWithin] with re hre
  exact (sphere_cd_of_lt_one re mach angle hre).symm

/-- C6 counterexample: the Stokes branch value as `Re → 1⁻` is `24`, while
the middle branch at `Re = 1` evaluates to `27.6`; the two do not agree. -/
theorem sphere_cd_boundary_mismatch :
    Filter.Tendsto
      (fun re => get_drag_coefficient ObjectType.sphere re 0 0)
      (nhdsWithin 1 (Set.Iio 1)) (nhds 24) ∧
    get_drag_coefficient ObjectType.sphere 1 0 0 = 27.6 ∧
    (24 : ℝ) ≠ 27.6 :=
  ⟨sphere_cd_tendsto_left 0 0, sphere_cd_at_one 0 0, by norm_num⟩

/-- C6 amended: the sphere drag coefficient is discontinuous at `Re = 1`:
the Stokes branch tends to `24` from below while the middle branch gives
`27.6` at `Re = 1`, a jump of `3.6` (15%). -/
theorem sphere_cd_jump_at_one :
    get_drag_coefficient ObjectType.sphere 1 0 0 - 24 = 3.6 ∧
    ¬ ContinuousWithinAt
        (fun re => get_drag_coefficient ObjectType.sphere re 0 0)
        (Set.Iio 1) 1 := by
  constructor
  · rw [sphere_cd_at_one]
    norm_num
  · intro hc
    have h1 := sphere_cd_tendsto_left 0 0
    have h2 := tendsto_nhds_unique h1 hc
    simp only [sphere_cd_at_one] at h2
    norm_num at h2

/-! Projection lemmas for `stepCore` and `step_simulation`. -/

theorem stepCore_geometry (geo : ObjectGeometry) (turb : Vec3)
    (m : SimulationManager) : (stepCore geo turb m).geometry = m.geometry :=
  rfl

theorem stepCore_parameters (geo : ObjectGeometry) (turb : Vec3)
    (m : SimulationManager) :
    (stepCore geo turb m).parameters = m.parameters := rfl

theorem stepCore_current_time (geo : ObjectGeometry) (turb : Vec3)
    (m : SimulationManager) :
    (stepCore geo turb m).current_time = m.current_time + m.parameters.dt :=
  rfl

theorem stepCore_time_history_length (geo : ObjectGeometry) (turb : Vec3)
    (m : SimulationManager) :
    (stepCore geo turb m).results.time_history.length =
      m.results.time_history.length + 1 := by
  simp only [stepCore]
  split
  · simp [recordStep, recordSnapshot]
  · simp [recordStep]

/-- One `stepCore` preserves the cross-sequence length invariant. -/
theorem resultsInvariant_stepCore (geo : ObjectGeometry) (turb : Vec3)
    (m : SimulationManager) (h : resultsInvariant m.results) :
    resultsInvariant (stepCore geo turb m).results := by
  obtain ⟨h1, h2, h3, h4, h5, h6⟩ := h
  simp only [stepCore, resultsInvariant, recordStep, recordSnapshot,
    List.length_append, List.length_cons, List.length_nil]
  split
  case isTrue hmod =>
    simp only [recordStep, List.length_append, List.length_cons,
      List.length_nil] at hmod ⊢
    refine ⟨by omega, by omega, by omega, by omega, by omega, by omega⟩
  case isFalse hmod =>
    simp only [recordStep, List.length_append, List.length_cons,
      List.length_nil] at hmod ⊢
    refine ⟨by omega, by omega, by omega, by omega, by omega, by omega⟩

/-- `step_simulation` preserves the cross-sequence length invariant (the
refused-step branches leave the results untouched). -/
theorem resultsInvariant_step (turb : Vec3) (m : SimulationManager)
    (h : resultsInvariant m.results) :
    resultsInvariant ((step_simulation turb m).2).results := by
  cases hg : m.geometry with
  | none =>
      rw [step_refused_no_geometry turb m hg]
      exact h
  | some geo =>
      by_cases ht : m.parameters.max_time ≤ m.current_time
      · rw [step_refused_time_up turb m hg ht]
        exact h
      · rw [step_simulation_success turb m hg (not_le.mp ht)]
        exact resultsInvariant_stepCore geo turb m h

/-- C4: after any sequence of steps, resets and geometry configurations
starting from a fresh manager, the results log keeps
`len(position) = len(velocity) = len(acceleration) = len(forces) = len(time)`
and `len(flow_fields) = len(efficiency_metrics) = len(time) / 10`; moreover
every single step (successful or refused) preserves that invariant. -/
theorem results_log_invariant :
    (∀ ops : List SimOp, resultsInvariant (applyOps initManager ops).results) ∧
    (∀ (m : SimulationManager) (turb : Vec3), resultsInvariant m.results →
      resultsInvariant ((step_simulation turb m).2).results) := by
  have hinit : resultsInvariant initManager.results := by
    simp [resultsInvariant, initManager, emptyResults]
  have key : ∀ (ops : List SimOp) (m : SimulationManager),
      resultsInvariant m.results →
      resultsInvariant (applyOps m ops).results := by
    intro ops
    induction ops with
    | nil => exact fun m h => h
    | cons op rest ih =>
        intro m h
        simp only [applyOps]
        apply ih
        cases op with
        | step turb => exact resultsInvariant_step turb m h
        | reset => simp [applyOp, reset_simulation, resultsInvariant,
            emptyResults]
        | setGeometry ty l w hh => exact h
  exact ⟨fun ops => key ops initManager hinit, fun m turb h =>
    resultsInvariant_step turb m h⟩

/-- Witness for C4's preservation clause at a concrete input: the fresh
manager satisfies the invariant and one step keeps it. -/
theorem results_log_invariant_witness :
    resultsInvariant initManager.results ∧
    resultsInvariant ((step_simulation 0 initManager).2).results :=
  ⟨by simp [resultsInvariant, initManager, emptyResults],
    results_log_invariant.2 initManager 0
      (by simp [resultsInvariant, initManager, emptyResults])⟩

/-- Clock, geometry, parameter and log-length bookkeeping for the first `k ≤
100` steps under `dt = 0.01`, `max_time = 1`. -/
theorem runSteps_clock (m : SimulationManager) {geo : ObjectGeometry}
    (hgeo : m.geometry = some geo) (hdt : m.parameters.dt = 0.01)
    (hmax : m.parameters.max_time = 1) (ht0 : m.current_time = 0)
    (hlen : m.results.time_history.length = 0) (f : Nat → Vec3) :
    ∀ k, k ≤ 100 →
      (runSteps f k m).geometry = some geo ∧
      (runSteps f k m).parameters = m.parameters ∧
      (runSteps f k m).current_time = (k : ℝ) * 0.01 ∧
      (runSteps f k m).results.time_history.length = k := by
  intro k
  induction k with
  | zero =>
      intro _
      refine ⟨hgeo, rfl, ?_, hlen⟩
      show m.current_time = ((0 : Nat) : ℝ) * 0.01
      rw [ht0]
      norm_num
  | succ n ih =>
      intro hn
      obtain ⟨hg, hp, htime, hl⟩ := ih (Nat.le_of_succ_le hn)
      have hn99 : (n : ℝ) ≤ 99 := by
        have : n ≤ 99 := by omega
        exact_mod_cast this
      have hlt : (runSteps f n m).current_time <
          (runSteps f n m).parameters.max_time := by
        rw [htime, hp, hmax]
        nlinarith
      have hstep := step_simulation_success (f n) (runSteps f n m) hg hlt
      simp only [runSteps, hstep]
      refine ⟨?_, ?_, ?_, ?_⟩
      · rw [stepCore_geometry]
        exact hg
      · rw [stepCore_parameters]
        exact hp
      · rw [stepCore_current_time, htime, hp, hdt]
        push_cast
        ring
      · rw [stepCore_time_history_length, hl]

/-- C7: with geometry set, `dt = 0.01`, `max_time = 1`, clock at 0 and an
empty log, the first 100 `step_simulation` calls all return `True`, exactly
100 entries end up in the time history, and the 101st call returns `False`
(the `current_time ≥ max_time` guard first fires then). -/
theorem step_count_dt_max_time (m : SimulationManager) {geo : ObjectGeometry}
    (hgeo : m.geometry = some geo) (hdt : m.parameters.dt = 0.01)
    (hmax : m.parameters.max_time = 1) (ht0 : m.current_time = 0)
    (hlen : m.results.time_history.length = 0) (f : Nat → Vec3)
    (turb : Vec3) :
    (∀ k, k < 100 → (step_simulation (f k) (runSteps f k m)).1 = true) ∧
    (runSteps f 100 m).results.time_history.length = 100 ∧
    (step_simulation turb (runSteps f 100 m)).1 = false := by
  have aux := runSteps_clock m hgeo hdt hmax ht0 hlen f
  refine ⟨?_, (aux 100 le_rfl).2.2.2, ?_⟩
  · intro k hk
    obtain ⟨hg, hp, htime, _⟩ := aux k (le_of_lt hk)
    have hk99 : (k : ℝ) ≤ 99 := by
      have : k ≤ 99 := by omega
      exact_mod_cast this
    have hlt : (runSteps f k m).current_time <
        (runSteps f k m).parameters.max_time := by
      rw [htime, hp, hmax]
      nlinarith
    rw [step_simulation_success (f k) (runSteps f k m) hg hlt]
  · obtain ⟨hg, hp, htime, _⟩ := aux 100 le_rfl
    have hstop : (runSteps f 100 m).parameters.max_time ≤
        (runSteps f 100 m).current_time := by
      rw [htime, hp, hmax]
      norm_num
    rw [step_refused_time_up turb (runSteps f 100 m) hg hstop]

/-- The sphere manager reconfigured to `dt = 0.01`, `max_time = 1`. -/
noncomputable def mgrHundred : SimulationManager :=
  set_object_geometry ObjectType.sphere 2 2 2
    { initManager with
      parameters := { defaultParameters with dt := 0.01, max_time := 1 } }

/-- Witness for C7 at a concrete input: running that manager 100 steps fills
the time history with 100 entries and the next step refuses. -/
theorem step_count_dt_max_time_witness :
    (runSteps (fun _ => 0) 100 mgrHundred).results.time_history.length =
      100 ∧
    (step_simulation 0 (runSteps (fun _ => 0) 100 mgrHundred)).1 = false :=
  ⟨(step_count_dt_max_time mgrHundred rfl rfl rfl
      (by norm_num [mgrHundred, set_object_geometry, initManager])
      rfl (fun _ => 0) 0).2.1,
    (step_count_dt_max_time mgrHundred rfl rfl rfl
      (by norm_num [mgrHundred, set_object_geometry, initManager])
      rfl (fun _ => 0) 0).2.2⟩

/-- With turbulence disabled the random draw never enters the step: two
`stepCore` calls with different draws coincide. -/
theorem stepCore_turb_irrelevant (geo : ObjectGeometry) (t t' : Vec3)
    (m : SimulationManager) (h : m.parameters.enable_turbulence = false) :
    stepCore geo t m = stepCore geo t' m := by
  simp [stepCore, effectiveWind, h]

/-- With turbulence disabled `step_simulation` ignores the random draw. -/
theorem step_simulation_turb_irrelevant (t t' : Vec3)
    (m : SimulationManager) (h : m.parameters.enable_turbulence = false) :
    step_simulation t m = step_simulation t' m := by
  cases hg : m.geometry with
  | none =>
      rw [step_refused_no_geometry t m hg,
        step_refused_no_geometry t' m hg]
  | some geo =>
      by_cases ht : m.parameters.max_time ≤ m.current_time
      · rw [step_refused_time_up t m hg ht,
          step_refused_time_up t' m hg ht]
      · rw [step_simulation_success t m hg (not_le.mp ht),
          step_simulation_success t' m hg (not_le.mp ht),
          stepCore_turb_irrelevant geo t t' m h]

/-- A step never changes the parameter record. -/
theorem step_simulation_preserves_parameters (t : Vec3)
    (m : SimulationManager) :
    ((step_simulation t m).2).parameters = m.parameters := by
  cases hg : m.geometry with
  | none => rw [step_refused_no_geometry t m hg]
  | some geo =>
      by_cases ht : m.parameters.max_time ≤ m.current_time
      · rw [step_refused_time_up t m hg ht]
      · rw [step_simulation_success t m hg (not_le.mp ht)]
        exact stepCore_parameters geo t m

/-- With turbulence disabled, whole runs ignore their random streams. -/
theorem runSteps_turb_irrelevant (m : SimulationManager)
    (h : m.parameters.enable_turbulence = false) (f g : Nat → Vec3) :
    ∀ n, runSteps f n m = runSteps g n m := by
  intro n
  induction n with
  | zero => rfl
  | succ k ih =>
      have hk : (runSteps g k m).parameters.enable_turbulence = false := by
        clear ih
        induction k with
        | zero => exact h
        | succ j ihj =>
            simp only [runSteps]
            rw [step_simulation_preserves_parameters]
            exact ihj
      simp only [runSteps, ih]
      rw [step_simulation_turb_irrelevant (f k) (g k) (runSteps g k m) hk]

/-- C8: with `enable_turbulence = false`, two runs from the same manager
(same parameters, geometry and initial state) under arbitrary, possibly
different, random streams produce identical time, position and velocity
histories. -/
theorem determinism_no_turbulence (m : SimulationManager)
    (h : m.parameters.enable_turbulence = false) (n : Nat)
    (f g : Nat → Vec3) :
    (runSteps f n m).results.time_history =
      (runSteps g n m).results.time_history ∧
    (runSteps f n m).results.position_history =
      (runSteps g n m).results.position_history ∧
    (runSteps f n m).results.velocity_history =
      (runSteps g n m).results.velocity_history := by
  rw [runSteps_turb_irrelevant m h f g n]
  exact ⟨rfl, rfl, rfl⟩

/-- Witness for C8 at a concrete input: the fresh manager has turbulence
disabled, and one step under two different draws gives the same histories. -/
theorem determinism_no_turbulence_witness :
    (runSteps (fun _ => 0) 1 initManager).results.time_history =
      (runSteps (fun _ => ⟨1, 2, 3⟩) 1 initManager).results.time_history ∧
    (runSteps (fun _ => 0) 1 initManager).results.position_history =
      (runSteps (fun _ => ⟨1, 2, 3⟩) 1
        initManager).results.position_history ∧
    (runSteps (fun _ => 0) 1 initManager).results.velocity_history =
      (runSteps (fun _ => ⟨1, 2, 3⟩) 1
        initManager).results.velocity_history :=
  determinism_no_turbulence initManager rfl 1 (fun _ => 0) (fun _ => ⟨1, 2, 3⟩)

/-- Under the claim's hypothesis `x_max < 2·r0`, the clamped radial distance
at every grid point is strictly positive: either the clamp floor `r0` is
positive, or `x_max` is negative and no x-grid value vanishes. -/
theorem flowR_pos (geometry : ObjectGeometry) (x_max y_max : ℝ)
    (hx : x_max < 2 * objRadius geometry) (j i : Nat) :
    0 < flowR geometry x_max y_max j i := by
  rcases lt_or_le 0 (objRadius geometry) with hr | hr
  · exact lt_of_lt_of_le hr (le_max_right _ _)
  · have hxm : x_max < 0 := by linarith
    have hform : flowX x_max i = x_max * ((2 * (i : ℝ) - 99) / 198) := by
      unfold flowX linspace
      push_cast
      ring
    have hxs : flowX x_max i ≠ 0 := by
      rw [hform]
      intro h0
      rcases mul_eq_zero.mp h0 with h' | h'
      · linarith
      · rcases div_eq_zero_iff.mp h' with h'' | h''
        · have hcast : ((2 * i : Nat) : ℝ) = ((99 : Nat) : ℝ) := by
            push_cast
            linarith
          have : 2 * i = 99 := Nat.cast_injective hcast
          omega
        · norm_num at h''
    have habs : |flowX x_max i| ≤
        Real.sqrt (flowX x_max i ^ 2 + flowY y_max j ^ 2) := by
      rw [← Real.sqrt_sq_eq_abs]
      exact Real.sqrt_le_sqrt (by nlinarith [sq_nonneg (flowY y_max j)])
    have hpos : 0 < Real.sqrt (flowX x_max i ^ 2 + flowY y_max j ^ 2) :=
      lt_of_lt_of_le (abs_pos.mpr hxs) habs
    exact lt_of_lt_of_le hpos (le_max_left _ _)

/-- C9: when the domain is smaller than the object diameter `2·r0`, every
`u`, `v`, `pressure` and `velocity_magnitude` grid entry of
`generate_flow_field` is a defined real number (`isSome`): the radius clamp
keeps every denominator positive, so no NaN/Inf can arise. -/
theorem flow_field_no_nan (air : AirProperties) (geometry : ObjectGeometry)
    (velocity : Vec3) (angle : ℝ) (x_max y_max : ℝ)
    (hx : x_max < 2 * objRadius geometry)
    (hy : y_max < 2 * objRadius geometry) :
    ∀ j i : Nat,
      ((generate_flow_field air geometry velocity angle
        (x_max, y_max)).u j i).isSome = true ∧
      ((generate_flow_field air geometry velocity angle
        (x_max, y_max)).v j i).isSome = true ∧
      ((generate_flow_field air geometry velocity angle
        (x_max, y_max)).pressure j i).isSome = true ∧
      ((generate_flow_field air geometry velocity angle
        (x_max, y_max)).velocity_magnitude j i).isSome = true := by
  intro j i
  have hR := (flowR_pos geometry x_max y_max hx j i).ne'
  simp [generate_flow_field, hR, Option.bind]

/-- Witness for C9 at a concrete input: a 2 m-wide body (`r0 = 1`) in a
`1 × 1` domain, entries defined at grid point `(0, 0)`. -/
theorem flow_field_no_nan_witness :
    (1 : ℝ) < 2 * objRadius ⟨1, 2, 2, 1, 1, 1, ObjectType.sphere⟩ ∧
    ((generate_flow_field defaultAirProperties
      ⟨1, 2, 2, 1, 1, 1, ObjectType.sphere⟩ ⟨20, 0, 0⟩ 0
      (1, 1)).u 0 0).isSome = true ∧
    ((generate_flow_field defaultAirProperties
      ⟨1, 2, 2, 1, 1, 1, ObjectType.sphere⟩ ⟨20, 0, 0⟩ 0
      (1, 1)).pressure 0 0).isSome = true := by
  have hr : (1 : ℝ) < 2 * objRadius ⟨1, 2, 2, 1, 1, 1, ObjectType.sphere⟩ := by
    norm_num [objRadius]
  have h := flow_field_no_nan defaultAirProperties
    ⟨1, 2, 2, 1, 1, 1, ObjectType.sphere⟩ ⟨20, 0, 0⟩ 0 1 1 hr hr 0 0
  exact ⟨hr, h.1, h.2.2.1⟩

end AARR
